import Mathlib

/-!
Verification of the africa-dashboard application (src/app.py) against its
natural-language specification.

The script is a single Streamlit page.  We give a shallow embedding of the
parts of it that the specification talks about:

* the result table (`causal_results`) is a list of `CausalRow`s, one row per
  model, mirroring the columns {Model, ATE, CI_low, CI_high, abs_ATE};
* pandas series operations used by the script (`idxmax`, `mean`, `std`) are
  translated to functions on `List ℚ`, with pandas NaN results modelled as
  `none` (an `Option`);
* Python exceptions that the embedded operations can raise are the
  constructors of `PyError`; a computation that ends in `Except.error`
  models an uncaught Python exception aborting the script run;
* number formatting (`f"{x:.4f}"`, `f"{n:,}"`) is translated to explicit
  decimal-string construction over `ℚ` and `ℕ`;
* the top-level statement/branch layout of the script, which is relevant
  because the `if view == ...` chain is interrupted by an unconditional
  statement at module level, is embedded as a list of `TopStmt` together
  with a well-formedness check matching the Python grammar rule that an
  `elif` clause must directly follow an `if`/`elif` block.
-/

set_option autoImplicit false

namespace AfricaDashboard

/-- Kinds of Python exceptions the embedded operations can raise.
`valueError` is the generic pandas `ValueError` (raised e.g. by `idxmax`
on an empty series), `keyError` a failed label lookup, `fileNotFoundError`
a failed `read_excel`, and `syntaxError` the parse-time failure of an
ill-formed module.  The constructors `emptyTableError` and `loadError`
are the dedicated errors demanded by the specification; they appear here
only so that statements can compare the errors actually raised with the
errors the specification names — no operation of the embedded code ever
raises them. -/
inductive PyError where
  | valueError
  | keyError
  | fileNotFoundError
  | syntaxError
  | emptyTableError
  | loadError
  deriving DecidableEq

/-- One row of the precomputed result table `causal_results`
(columns Model, ATE, CI_low, CI_high, abs_ATE).  Numeric cells are
modelled as rationals. -/
structure CausalRow where
  model : String
  ATE : ℚ
  CI_low : ℚ
  CI_high : ℚ
  abs_ATE : ℚ
  deriving DecidableEq

/-- Equality of `Except` results is decidable when both components are. -/
instance exceptDecEq {ε α : Type} [DecidableEq ε] [DecidableEq α] :
    DecidableEq (Except ε α) := fun a b =>
  match a, b with
  | .error e1, .error e2 =>
    if h : e1 = e2 then .isTrue (by rw [h]) else .isFalse (by intro hc; cases hc; exact h rfl)
  | .error _, .ok _ => .isFalse (by intro hc; cases hc)
  | .ok _, .error _ => .isFalse (by intro hc; cases hc)
  | .ok v1, .ok v2 =>
    if h : v1 = v2 then .isTrue (by rw [h]) else .isFalse (by intro hc; cases hc; exact h rfl)

/-- Helper for `idxmax`: fold of `max` over the tail of the series,
starting from its head. -/
def seriesMaxAux (acc : ℚ) : List ℚ → ℚ
  | [] => acc
  | x :: rest => seriesMaxAux (if acc < x then x else acc) rest

/-- Position of the first occurrence of `v` in the list (length of the list
when `v` does not occur). -/
def firstIdxOf (v : ℚ) : List ℚ → ℕ
  | [] => 0
  | x :: rest => if x = v then 0 else firstIdxOf v rest + 1

/-- pandas `Series.idxmax` on a default range index: the index of the first
occurrence of the maximum value.  On an empty series pandas raises
`ValueError` ("attempt to get argmax of an empty sequence"). -/
def idxmax (xs : List ℚ) : Except PyError ℕ :=
  match xs with
  | [] => .error .valueError
  | x :: rest => .ok (firstIdxOf (seriesMaxAux x rest) (x :: rest))

/-- Lines 119–123 of src/app.py:
`best_idx = causal_results["abs_ATE"].idxmax()` followed by the four
`causal_results.loc[best_idx, ...]` lookups, packaged as the selected row.
A label lookup that misses would be a `keyError` (it never happens, since
`idxmax` returns an in-range position). -/
def bestModelSelection (t : List CausalRow) : Except PyError CausalRow :=
  match idxmax (t.map (fun r => r.abs_ATE)) with
  | .error e => .error e
  | .ok i =>
    match t.get? i with
    | some r => .ok r
    | none => .error .keyError

/-- Row "A" of end-to-end scenario C of the specification (ATE = 0.002). -/
def rowA : CausalRow :=
  { model := "A", ATE := 2/1000, CI_low := -(1/100), CI_high := 1/100, abs_ATE := 2/1000 }

/-- Row "B" of end-to-end scenario C of the specification (ATE = −0.01). -/
def rowB : CausalRow :=
  { model := "B", ATE := -(1/100), CI_low := -(2/100), CI_high := 1/1000, abs_ATE := 1/100 }

lemma seriesMaxAux_cons (acc x : ℚ) (rest : List ℚ) :
    seriesMaxAux acc (x :: rest) = seriesMaxAux (if acc < x then x else acc) rest := rfl

lemma le_seriesMaxAux (xs : List ℚ) : ∀ acc : ℚ, acc ≤ seriesMaxAux acc xs := by
  induction xs with
  | nil => intro acc; exact le_refl _
  | cons x rest ih =>
    intro acc
    rw [seriesMaxAux_cons]
    refine le_trans ?_ (ih (if acc < x then x else acc))
    split
    · exact le_of_lt (by assumption)
    · exact le_refl _

lemma mem_le_seriesMaxAux (xs : List ℚ) :
    ∀ acc : ℚ, ∀ y ∈ xs, y ≤ seriesMaxAux acc xs := by
  induction xs with
  | nil => intro acc y hy; cases hy
  | cons x rest ih =>
    intro acc y hy
    rw [seriesMaxAux_cons]
    rcases List.mem_cons.1 hy with h | h
    · subst h
      refine le_trans ?_ (le_seriesMaxAux rest (if acc < y then y else acc))
      split
      · exact le_refl _
      · exact le_of_not_lt (by assumption)
    · exact ih _ y h

lemma seriesMaxAux_eq_or_mem (xs : List ℚ) :
    ∀ acc : ℚ, seriesMaxAux acc xs = acc ∨ seriesMaxAux acc xs ∈ xs := by
  induction xs with
  | nil => intro acc; exact Or.inl rfl
  | cons x rest ih =>
    intro acc
    rw [seriesMaxAux_cons]
    rcases ih (if acc < x then x else acc) with h | h
    · rw [h]
      split
      · exact Or.inr (List.mem_cons_self _ _)
      · exact Or.inl rfl
    · exact Or.inr (List.mem_cons_of_mem _ h)

lemma firstIdxOf_cons (v x : ℚ) (rest : List ℚ) :
    firstIdxOf v (x :: rest) = if x = v then 0 else firstIdxOf v rest + 1 := rfl

lemma get?_firstIdxOf {v : ℚ} {xs : List ℚ} (h : v ∈ xs) :
    xs.get? (firstIdxOf v xs) = some v := by
  induction xs with
  | nil => cases h
  | cons x rest ih =>
    rw [firstIdxOf_cons]
    split
    · simpa using (by assumption : x = v)
    · rcases List.mem_cons.1 h with h1 | h1
      · exact absurd h1.symm (by assumption)
      · simpa using ih h1

lemma idxmax_nil : idxmax [] = .error .valueError := rfl

lemma bestModelSelection_nil : bestModelSelection [] = .error .valueError := rfl

lemma bestModelSelection_cons (r0 : CausalRow) (rs : List CausalRow) :
    bestModelSelection (r0 :: rs) =
      match (r0 :: rs).get? (firstIdxOf (seriesMaxAux r0.abs_ATE (rs.map (fun r => r.abs_ATE)))
          ((r0 :: rs).map (fun r => r.abs_ATE))) with
      | some r => .ok r
      | none => .error .keyError := rfl

/-- On a non-empty table the selection at lines 119–123 succeeds. -/
lemma bestModelSelection_ok_of_ne_nil {t : List CausalRow} (h : t ≠ []) :
    ∃ r, bestModelSelection t = .ok r := by
  match t, h with
  | r0 :: rs, _ =>
    rw [bestModelSelection_cons]
    set m := seriesMaxAux r0.abs_ATE (rs.map (fun r => r.abs_ATE)) with hm
    have hmem : m ∈ (r0 :: rs).map (fun r => r.abs_ATE) := by
      rcases seriesMaxAux_eq_or_mem (rs.map (fun r => r.abs_ATE)) r0.abs_ATE with h1 | h1
      · rw [hm, h1]
        exact List.mem_map_of_mem _ (List.mem_cons_self _ _)
      · exact List.mem_cons_of_mem _ (by rw [hm]; exact h1)
    have hget := get?_firstIdxOf hmem
    have hlt : firstIdxOf m ((r0 :: rs).map (fun r => r.abs_ATE)) <
        ((r0 :: rs).map (fun r => r.abs_ATE)).length :=
      (List.get?_eq_some.1 hget).1
    rw [List.length_map] at hlt
    rw [List.get?_eq_get hlt]
    exact ⟨_, rfl⟩

/-- The selected row is a row of the table, and its `abs_ATE` cell is
maximal among all rows. -/
lemma bestModelSelection_spec {t : List CausalRow} {r : CausalRow}
    (h : bestModelSelection t = .ok r) :
    r ∈ t ∧ ∀ q ∈ t, q.abs_ATE ≤ r.abs_ATE := by
  match t with
  | [] => rw [bestModelSelection_nil] at h; cases h
  | r0 :: rs =>
    rw [bestModelSelection_cons] at h
    set m := seriesMaxAux r0.abs_ATE (rs.map (fun r => r.abs_ATE)) with hm
    set i := firstIdxOf m ((r0 :: rs).map (fun r => r.abs_ATE)) with hi
    have hmem : m ∈ (r0 :: rs).map (fun r => r.abs_ATE) := by
      rcases seriesMaxAux_eq_or_mem (rs.map (fun r => r.abs_ATE)) r0.abs_ATE with h1 | h1
      · rw [hm, h1]
        exact List.mem_map_of_mem _ (List.mem_cons_self _ _)
      · exact List.mem_cons_of_mem _ (by rw [hm]; exact h1)
    have hget : ((r0 :: rs).map (fun r => r.abs_ATE)).get? i = some m := get?_firstIdxOf hmem
    have hr : (r0 :: rs).get? i = some r := by
      rcases heq : (r0 :: rs).get? i with _ | r'
      · rw [heq] at h; cases h
      · rw [heq] at h; cases h; rfl
    have habs : r.abs_ATE = m := by
      rw [List.get?_map, hr] at hget
      simpa using hget
    constructor
    · exact List.get?_mem hr
    · intro q hq
      have hqmem : q.abs_ATE ∈ (r0 :: rs).map (fun r => r.abs_ATE) :=
        List.mem_map_of_mem _ hq
      rw [habs]
      rcases List.mem_cons.1 hqmem with h1 | h1
      · rw [h1, hm]; exact le_seriesMaxAux _ _
      · rw [hm]; exact mem_le_seriesMaxAux _ _ _ h1

/-- C1: for every non-empty result table the best-model selection (the
`idxmax` over the `abs_ATE` column at lines 119–123) succeeds and returns a
row of the table whose `|ATE|` is maximal, provided the precomputed
`abs_ATE` column agrees with `|ATE|` on every row; in particular, on the
two-row table of end-to-end scenario C it returns row "B". -/
theorem best_model_maximizes_abs_ATE :
    (∀ t : List CausalRow, t ≠ [] → ∃ r, bestModelSelection t = .ok r) ∧
    (∀ (t : List CausalRow) (r : CausalRow),
      (∀ q ∈ t, q.abs_ATE = |q.ATE|) →
      bestModelSelection t = .ok r →
      r ∈ t ∧ ∀ q ∈ t, |q.ATE| ≤ |r.ATE|) ∧
    bestModelSelection [rowA, rowB] = .ok rowB := by
  refine ⟨fun t h => bestModelSelection_ok_of_ne_nil h, ?_, ?_⟩
  · intro t r habs hsel
    obtain ⟨hmem, hmax⟩ := bestModelSelection_spec hsel
    refine ⟨hmem, fun q hq => ?_⟩
    have := hmax q hq
    rwa [habs q hq, habs r hmem] at this
  · norm_num [bestModelSelection, idxmax, seriesMaxAux, firstIdxOf, rowA, rowB]

/-- Witness for C1 at the concrete table of scenario C. -/
theorem best_model_maximizes_abs_ATE_witness :
    rowB ∈ [rowA, rowB] ∧ ∀ q ∈ [rowA, rowB], |q.ATE| ≤ |rowB.ATE| :=
  best_model_maximizes_abs_ATE.2.1 [rowA, rowB] rowB
    (by
      intro q hq
      rcases List.mem_cons.1 hq with h | h
      · subst h
        rw [rowA]
        rw [abs_of_nonneg (by norm_num)]
      · rcases List.mem_cons.1 h with h1 | h1
        · subst h1
          rw [rowB]
          rw [abs_of_nonpos (by norm_num)]
          norm_num
        · cases h1)
    best_model_maximizes_abs_ATE.2.2

/-- C2 counterexample: on an empty table the selection fails with the
generic pandas `ValueError` raised by `idxmax`, not with a dedicated
empty-table error. -/
theorem best_model_empty_not_emptyTableError :
    bestModelSelection [] = .error .valueError ∧
    PyError.valueError ≠ PyError.emptyTableError :=
  ⟨rfl, by decide⟩

/-- C2 amended: on an empty table the best-model selection fails with the
generic `ValueError` that `idxmax` raises on any empty series (the program
defines no dedicated empty-table error), and it does not silently return a
row. -/
theorem best_model_empty_raises_valueError :
    bestModelSelection [] = .error .valueError ∧
    idxmax [] = .error .valueError ∧
    ∀ r : CausalRow, bestModelSelection [] ≠ .ok r := by
  refine ⟨rfl, rfl, fun r h => ?_⟩
  rw [bestModelSelection_nil] at h
  cases h

/-- One spreadsheet cell: text, number, or missing. -/
inductive Cell where
  | str (s : String)
  | num (q : ℚ)
  | na
  deriving DecidableEq

/-- A loaded spreadsheet: its column names and its data rows, as
`pd.read_excel` returns them.  No shape validation is attached. -/
structure Dataset where
  columns : List String
  rows : List (List Cell)
  deriving DecidableEq

/-- Abstract file system: maps a path to the spreadsheet stored there, or
`none` when the path is unreadable. -/
def FS : Type := String → Option Dataset

/-- `pd.read_excel(path)`: returns the stored spreadsheet as-is, raising
`FileNotFoundError` when the path is unreadable.  No column or emptiness
check is performed. -/
def read_excel (fs : FS) (path : String) : Except PyError Dataset :=
  match fs path with
  | some d => .ok d
  | none => .error .fileNotFoundError

/-- Lines 14–19 of src/app.py: `load_data` reads the three spreadsheets
(`data.xlsx`, `causal_results (1).xlsx`, `cate_results.xlsx`) and returns
them as a triple.  It contains no validation of any kind. -/
def load_data (fs : FS) : Except PyError (Dataset × Dataset × Dataset) := do
  let df ← read_excel fs "data.xlsx"
  let causal ← read_excel fs "causal_results (1).xlsx"
  let cate ← read_excel fs "cate_results.xlsx"
  return (df, causal, cate)

/-- The sequence of file reads performed by one call of `load_data`, in
source order (the three `pd.read_excel` calls at lines 16–18). -/
def loadReadTrace : List String :=
  ["data.xlsx", "causal_results (1).xlsx", "cate_results.xlsx"]

/-- Lines 42–45 of src/app.py: the option list of the Map View variable
selectbox.  It is a hard-coded literal; the loaded dataset `df` does not
appear in it, so the function ignores its argument. -/
def mapViewVariableOptions (df : Dataset) : List String :=
  ["ghg_emissions", "gdp_per_capita", "gov_effectiveness"]

/-- Lines 73–76 of src/app.py: the option list of the Trend Comparison
variable selectbox, again a hard-coded literal ignoring `df`. -/
def trendVariableOptions (df : Dataset) : List String :=
  ["ghg_emissions", "gdp_per_capita", "gov_effectiveness"]

/-- Modelled from the spec (§4.2 Indicator Catalog): the selectable field
names are the dataset columns minus the two key fields `country` and
`year`.  This definition follows the specification text and exists to be
compared with the option lists the code actually offers. -/
def fields_spec (df : Dataset) : List String :=
  df.columns.filter (fun c => c ≠ "country" && c ≠ "year")

/-- A dataset whose columns differ from the hard-coded option list:
it has an extra indicator `forest_cover` and lacks `gdp_per_capita`. -/
def exDS : Dataset :=
  { columns := ["country", "year", "ghg_emissions", "forest_cover"], rows := [] }

/-- C3 counterexample: on `exDS` the offered variable list is not the
column set minus {country, year}: `forest_cover` is a column but is not
offered, and `gdp_per_capita` is offered though it is not a column. -/
theorem variable_options_not_function_of_columns :
    mapViewVariableOptions exDS ≠ fields_spec exDS ∧
    "forest_cover" ∈ fields_spec exDS ∧
    "forest_cover" ∉ mapViewVariableOptions exDS ∧
    "gdp_per_capita" ∈ mapViewVariableOptions exDS ∧
    "gdp_per_capita" ∉ exDS.columns := by
  refine ⟨?_, ?_, ?_, ?_, ?_⟩ <;> decide

/-- C3 amended: the indicator lists offered by the Map View and Trend
Comparison selectboxes are one fixed hard-coded list, identical for every
loaded dataset; they are not derived from the dataset columns. -/
theorem variable_options_fixed_list :
    (∀ d1 d2 : Dataset, mapViewVariableOptions d1 = mapViewVariableOptions d2) ∧
    (∀ d : Dataset,
      mapViewVariableOptions d = ["ghg_emissions", "gdp_per_capita", "gov_effectiveness"] ∧
      trendVariableOptions d = mapViewVariableOptions d) :=
  ⟨fun _ _ => rfl, fun _ => ⟨rfl, rfl⟩⟩

/-- The empty spreadsheet: no columns (hence no `country`/`year`), no rows. -/
def emptyDS : Dataset := { columns := [], rows := [] }

/-- Three-file system whose data file is the empty spreadsheet. -/
def exFS : FS := fun p =>
  if p = "data.xlsx" then some emptyDS
  else if p = "causal_results (1).xlsx" then some emptyDS
  else if p = "cate_results.xlsx" then some emptyDS
  else none

/-- The wholly unreadable file system. -/
def noneFS : FS := fun _ => none

/-- C4 counterexample: loading succeeds on an empty data file that has
neither a `country` nor a `year` column — no `LoadError` (and no error at
all) is raised. -/
theorem load_data_no_validation :
    load_data exFS = .ok (emptyDS, emptyDS, emptyDS) ∧
    "country" ∉ emptyDS.columns ∧
    "year" ∉ emptyDS.columns ∧
    emptyDS.rows = [] := by
  refine ⟨rfl, ?_, ?_, rfl⟩ <;> decide

/-- C4 amended: `load_data` validates nothing — whenever the three paths
are readable it returns their contents unchanged (its only effect being
the three reads of `loadReadTrace`), even if a file is empty or lacks the
key columns; and an unreadable data file surfaces as the raw
`FileNotFoundError` of `read_excel`, not as a `LoadError`. -/
theorem load_data_returns_reads_unchanged :
    (∀ (fs : FS) (a b c : Dataset),
      fs "data.xlsx" = some a →
      fs "causal_results (1).xlsx" = some b →
      fs "cate_results.xlsx" = some c →
      load_data fs = .ok (a, b, c)) ∧
    (∀ fs : FS, fs "data.xlsx" = none → load_data fs = .error .fileNotFoundError) ∧
    loadReadTrace = ["data.xlsx", "causal_results (1).xlsx", "cate_results.xlsx"] := by
  refine ⟨?_, ?_, rfl⟩
  · intro fs a b c ha hb hc
    rw [load_data, read_excel, ha, read_excel, hb, read_excel, hc]
    rfl
  · intro fs h
    rw [load_data, read_excel, h]
    rfl

/-- Witness for C4 (amended) at the concrete file systems `exFS` and
`noneFS`. -/
theorem load_data_returns_reads_unchanged_witness :
    load_data exFS = .ok (emptyDS, emptyDS, emptyDS) ∧
    load_data noneFS = .error .fileNotFoundError :=
  ⟨load_data_returns_reads_unchanged.1 exFS emptyDS emptyDS emptyDS rfl rfl rfl,
    load_data_returns_reads_unchanged.2.1 noneFS rfl⟩

/-- A column-0 statement of the script: the head of an `if view == c:`
block, the head of an `elif view == c:` block, or any other top-level
statement (tagged with a short description of the source line). -/
inductive TopStmt where
  | ifB (cond : String)
  | elifB (cond : String)
  | plain (tag : String)
  deriving DecidableEq

/-- The column-0 statement sequence of src/app.py, in source order.  The
key feature is `plain "st.info"` (line 168) sitting between the
`elif view == "Model Results"` block and the
`elif view == "CATE Visualization"` block (line 172). -/
def appTopLevel : List TopStmt :=
  [.plain "import streamlit as st",
   .plain "import pandas as pd",
   .plain "import plotly.express as px",
   .plain "import plotly.graph_objects as go",
   .plain "st.set_page_config",
   .plain "def load_data",
   .plain "call load_data",
   .plain "st.sidebar.title",
   .plain "view = st.sidebar.radio",
   .ifB "Map View",
   .elifB "Trend Comparison",
   .elifB "Model Results",
   .plain "st.info",
   .elifB "CATE Visualization"]

/-- Helper for `chainOk`: walks the statement list remembering the
previous statement; an `elif` block is legal only directly after an `if`
or `elif` block. -/
def chainOkAux (prev : TopStmt) : List TopStmt → Bool
  | [] => true
  | s :: rest =>
    match s, prev with
    | .elifB _, .ifB _ => chainOkAux s rest
    | .elifB _, .elifB _ => chainOkAux s rest
    | .elifB _, .plain _ => false
    | _, _ => chainOkAux s rest

/-- The Python grammar rule relevant here: every `elif` clause must
directly follow an `if` or `elif` block at the same indentation; an
intervening plain statement (or a leading `elif`) makes the module a
`SyntaxError`. -/
def chainOk : List TopStmt → Bool
  | [] => true
  | .elifB _ :: _ => false
  | s :: rest => chainOkAux s rest

/-- Branch dispatch of a well-formed module: returns the conditions of the
branches whose bodies run, for a given value of `view`.  The `Option Bool`
state records whether the walk is inside an `if`/`elif` chain and whether
some branch of it already matched. -/
def execStmts (view : String) : List TopStmt → Option Bool → List String
  | [], _ => []
  | .ifB c :: rest, _ =>
    if view = c then c :: execStmts view rest (some true)
    else execStmts view rest (some false)
  | .elifB c :: rest, some true => execStmts view rest (some true)
  | .elifB c :: rest, some false =>
    if view = c then c :: execStmts view rest (some true)
    else execStmts view rest (some false)
  | .elifB _ :: rest, none => execStmts view rest none
  | .plain _ :: rest, _ => execStmts view rest none

/-- Running the module: Python first parses the whole file; an ill-formed
chain is a `SyntaxError` and nothing executes.  Otherwise the branch
bodies selected by `view` run. -/
def runScript (view : String) (stmts : List TopStmt) : Except PyError (List String) :=
  if chainOk stmts then .ok (execStmts view stmts none) else .error .syntaxError

/-- C5: for every sidebar selection, running src/app.py is a
`SyntaxError` — the `st.info` call at line 168 interrupts the `if`/`elif`
chain, so the module is ill-formed and in particular the
"CATE Visualization" branch (offered by the sidebar radio) can never
execute. -/
theorem cate_view_branch_never_executes :
    chainOk appTopLevel = false ∧
    (∀ view : String, runScript view appTopLevel = .error .syntaxError) ∧
    (∀ (view : String) (out : List String),
      runScript view appTopLevel ≠ .ok out) := by
  have hchain : chainOk appTopLevel = false := by decide
  refine ⟨hchain, fun view => ?_, fun view out h => ?_⟩
  · rw [runScript, hchain]
    rfl
  · rw [runScript, hchain] at h
    cases h

/-- pandas `Series.mean`: the arithmetic mean, NaN (here `none`) on an
empty series. -/
def seriesMean (xs : List ℚ) : Option ℚ :=
  if xs.length = 0 then none else some (xs.sum / xs.length)

/-- pandas `Series.var` with the default `ddof = 1`: the sum of squared
deviations from the mean divided by `n - 1`.  For fewer than two
observations the result is NaN (here `none`). -/
def seriesVar (xs : List ℚ) : Option ℚ :=
  if xs.length < 2 then none
  else some (((xs.map (fun x => (x - xs.sum / xs.length) ^ 2)).sum) / (xs.length - 1))

/-- pandas `Series.std` (default `ddof = 1`): the square root of
`seriesVar`; NaN (`none`) for fewer than two observations. -/
noncomputable def seriesStd (xs : List ℚ) : Option ℝ :=
  (seriesVar xs).map (fun v => Real.sqrt v)

/-- Lines 175–177 of src/app.py: the CATE summary displays the
observation count, the mean and the standard deviation of the `CATE`
column. -/
noncomputable def cateSummary (xs : List ℚ) : ℕ × Option ℚ × Option ℝ :=
  (xs.length, seriesMean xs, seriesStd xs)

lemma seriesMean_replicate {n : ℕ} (v : ℚ) (h : 1 ≤ n) :
    seriesMean (List.replicate n v) = some v := by
  have hn : (n : ℚ) ≠ 0 := Nat.cast_ne_zero.2 (by omega)
  rw [seriesMean]
  rw [List.length_replicate, List.sum_replicate]
  rw [if_neg (by omega)]
  rw [nsmul_eq_mul, mul_comm, mul_div_assoc, div_self hn, mul_one]

lemma seriesVar_replicate {n : ℕ} (v : ℚ) (h : 2 ≤ n) :
    seriesVar (List.replicate n v) = some 0 := by
  have hn : (n : ℚ) ≠ 0 := Nat.cast_ne_zero.2 (by omega)
  rw [seriesVar]
  rw [if_neg (by rw [List.length_replicate]; omega)]
  congr 1
  rw [List.length_replicate, List.sum_replicate, List.map_replicate]
  rw [nsmul_eq_mul, mul_comm, mul_div_assoc, div_self hn, mul_one]
  simp

/-- C6 counterexample: the summary of the single-value sequence `[5]`
reports a NaN standard deviation (pandas `std` with `ddof = 1`), not 0. -/
theorem cate_std_single_value_nan :
    seriesStd (List.replicate 1 (5 : ℚ)) = none ∧
    seriesStd (List.replicate 1 (5 : ℚ)) ≠ some (0 : ℝ) := by
  have h : seriesStd (List.replicate 1 (5 : ℚ)) = none := by
    rw [seriesStd, seriesVar]
    rfl
  exact ⟨h, by rw [h]; intro hc; cases hc⟩

/-- C6 amended: over `N` identical values the summary reports mean equal
to that value for every `N ≥ 1`, and standard deviation 0 for every
`N ≥ 2`; for `N = 1` the sample standard deviation is NaN. -/
theorem cate_summary_identical_values {n : ℕ} (v : ℚ) (h1 : 1 ≤ n) :
    seriesMean (List.replicate n v) = some v ∧
    (2 ≤ n → seriesStd (List.replicate n v) = some 0) ∧
    (n = 1 → seriesStd (List.replicate n v) = none) := by
  refine ⟨seriesMean_replicate v h1, fun h2 => ?_, fun h2 => ?_⟩
  · rw [seriesStd, seriesVar_replicate v h2]
    simp [Real.sqrt_zero]
  · subst h2
    rw [seriesStd, seriesVar]
    rfl

/-- Witness for C6 (amended) at `N = 3`, `v = 7`. -/
theorem cate_summary_identical_values_witness :
    seriesMean (List.replicate 3 (7 : ℚ)) = some 7 ∧
    (2 ≤ 3 → seriesStd (List.replicate 3 (7 : ℚ)) = some 0) ∧
    (3 = 1 → seriesStd (List.replicate 3 (7 : ℚ)) = none) :=
  cate_summary_identical_values (7 : ℚ) (by omega)

/-- C7: on an empty conditional-effect sequence the summary is the defined
sentinel triple (count 0, NaN mean, NaN standard deviation) — pandas
returns NaN deterministically rather than an arbitrary number or an
exception. -/
theorem cate_summary_empty_sentinel :
    cateSummary ([] : List ℚ) = (0, none, none) := by
  simp [cateSummary, seriesMean, seriesVar, seriesStd]

/-- The decimal digit character for `d < 10`. -/
def digitChar (d : ℕ) : Char := Char.ofNat (48 + d)

/-- Decimal digit characters of a natural number, most significant first;
`fuel` bounds the recursion depth. -/
def natCharsAux : ℕ → ℕ → List Char
  | 0, _ => []
  | fuel + 1, n =>
    if n < 10 then [digitChar n] else natCharsAux fuel (n / 10) ++ [digitChar (n % 10)]

/-- Decimal rendering of a natural number. -/
def natChars (n : ℕ) : List Char := natCharsAux (n + 1) n

/-- The four fractional digit characters of Python `"%.4f"`: the last four
decimal digits of `m` (which is the rounded value scaled by 10⁴), left
padded with zeros. -/
def fourDigitChars (m : ℕ) : List Char :=
  [digitChar (m / 1000 % 10), digitChar (m / 100 % 10),
   digitChar (m / 10 % 10), digitChar (m % 10)]

/-- The leading minus sign, when the value is negative. -/
def signChars (n : ℤ) : List Char := if n < 0 then ['-'] else []

/-- Python `f"{x:.4f}"` on the embedded rational value: round the value
scaled by 10⁴ to an integer (the exact tie-breaking of binary floats is
immaterial to the digit layout) and print sign, integer digits, a point,
and exactly four fractional digits. -/
def formatFixed4 (q : ℚ) : String :=
  String.mk (signChars (round (q * 10000)) ++
    natChars ((round (q * 10000)).natAbs / 10000) ++
    '.' :: fourDigitChars ((round (q * 10000)).natAbs % 10000))

/-- Helper for `formatComma`: walking the digit list least significant
first, a comma is placed after every third digit. -/
def commaRev : ℕ → List Char → List Char
  | _, [] => []
  | i, c :: rest =>
    if i % 3 = 0 ∧ i ≠ 0 then ',' :: c :: commaRev (i + 1) rest
    else c :: commaRev (i + 1) rest

/-- Python `f"{n:,}"`: decimal rendering with thousands separators and no
fractional part. -/
def formatComma (n : ℕ) : String :=
  String.mk ((commaRev 0 (natChars n).reverse).reverse)

/-- Whether the characters after the last `.` of the list are exactly four
decimal digits (false when no `.` occurs). -/
def fourDecimalCheckL (cs : List Char) : Bool :=
  if ('.') ∈ cs then
    ((cs.reverse.takeWhile (fun c => c != '.')).reverse.length = 4) &&
    ((cs.reverse.takeWhile (fun c => c != '.')).reverse.all Char.isDigit)
  else false

/-- Whether a display string carries exactly four decimal digits after its
last decimal point. -/
def fourDecimalCheck (s : String) : Bool := fourDecimalCheckL s.data

/-- Line 126 of src/app.py: the metric label. -/
def bestModelLabel (r : CausalRow) : String := "Best Model: " ++ r.model

/-- Line 127 of src/app.py: `f"ATE = {ate:.4f}"`. -/
def ateDisplay (r : CausalRow) : String := "ATE = " ++ formatFixed4 r.ATE

/-- Line 128 of src/app.py: `f"95% CI: [{ci_low:.4f}, {ci_high:.4f}]"`. -/
def ciDisplay (r : CausalRow) : String :=
  "95% CI: [" ++ formatFixed4 r.CI_low ++ ", " ++ formatFixed4 r.CI_high ++ "]"

/-- Line 175 of src/app.py: the observation count markdown, formatted with
`{:,}` (thousands separators, no decimal digits). -/
def cateCountLine (n : ℕ) : String :=
  "**Number of CATE observations:** " ++ formatComma n

/-- Line 176 of src/app.py for a numeric mean value. -/
def cateMeanLine (m : ℚ) : String := "**Mean CATE:** " ++ formatFixed4 m

/-- Line 177 of src/app.py for a numeric standard deviation value. -/
def cateStdLine (s : ℚ) : String := "**Std Dev:** " ++ formatFixed4 s

lemma digitChar_spec :
    ∀ d : ℕ, d < 10 → (digitChar d).isDigit = true ∧ ((digitChar d) != '.') = true := by
  decide

lemma fourDigitChars_digit {m : ℕ} :
    ∀ c ∈ fourDigitChars m, c.isDigit = true := by
  intro c hc
  rw [fourDigitChars] at hc
  have h10 : (0 : ℕ) < 10 := by norm_num
  rcases List.mem_cons.1 hc with h | h
  · exact h ▸ (digitChar_spec _ (Nat.mod_lt _ h10)).1
  rcases List.mem_cons.1 h with h | h
  · exact h ▸ (digitChar_spec _ (Nat.mod_lt _ h10)).1
  rcases List.mem_cons.1 h with h | h
  · exact h ▸ (digitChar_spec _ (Nat.mod_lt _ h10)).1
  rcases List.mem_cons.1 h with h | h
  · exact h ▸ (digitChar_spec _ (Nat.mod_lt _ h10)).1
  · cases h

lemma fourDigitChars_ne_dot {m : ℕ} :
    ∀ c ∈ fourDigitChars m, (c != '.') = true := by
  intro c hc
  rw [fourDigitChars] at hc
  have h10 : (0 : ℕ) < 10 := by norm_num
  rcases List.mem_cons.1 hc with h | h
  · exact h ▸ (digitChar_spec _ (Nat.mod_lt _ h10)).2
  rcases List.mem_cons.1 h with h | h
  · exact h ▸ (digitChar_spec _ (Nat.mod_lt _ h10)).2
  rcases List.mem_cons.1 h with h | h
  · exact h ▸ (digitChar_spec _ (Nat.mod_lt _ h10)).2
  rcases List.mem_cons.1 h with h | h
  · exact h ▸ (digitChar_spec _ (Nat.mod_lt _ h10)).2
  · cases h

lemma takeWhile_append_stop (p : Char → Bool) (L M : List Char) (m0 : Char)
    (hL : ∀ c ∈ L, p c = true) (hm : p m0 = false) :
    List.takeWhile p (L ++ m0 :: M) = L := by
  induction L with
  | nil => simp [List.takeWhile, hm]
  | cons x rest ih =>
    rw [List.cons_append, List.takeWhile]
    rw [hL x (List.mem_cons_self _ _)]
    rw [ih (fun c hc => hL c (List.mem_cons_of_mem _ hc))]

lemma fourDecimalCheck_mk (cs : List Char) :
    fourDecimalCheck (String.mk cs) = fourDecimalCheckL cs := rfl

lemma fourDecimalCheckL_of_shape (A D : List Char) (hlen : D.length = 4)
    (hdig : ∀ c ∈ D, c.isDigit = true) (hne : ∀ c ∈ D, (c != '.') = true) :
    fourDecimalCheckL (A ++ '.' :: D) = true := by
  rw [fourDecimalCheckL]
  rw [if_pos (List.mem_append_right A (List.mem_cons_self _ _))]
  rw [List.reverse_append, List.reverse_cons, List.append_assoc, List.singleton_append]
  rw [takeWhile_append_stop _ _ _ '.'
    (fun c hc => hne c (List.mem_reverse.1 hc)) (by decide)]
  rw [List.reverse_reverse, hlen]
  simp [List.all_eq_true]
  exact hdig

/-- C8 amended: every value the script formats with `:.4f` (the best-model
ATE, both confidence bounds, and the CATE mean and standard deviation) is
rendered with exactly four digits after the decimal point; the observation
count, in contrast, is rendered by `{:,}` with no decimal digits at all. -/
theorem formatted_statistics_four_decimals :
    ∀ q : ℚ, fourDecimalCheck (formatFixed4 q) = true := by
  intro q
  rw [formatFixed4, fourDecimalCheck_mk]
  refine fourDecimalCheckL_of_shape _ _ ?_ fourDigitChars_digit fourDigitChars_ne_dot
  rfl

/-- C8 counterexample: the displayed CATE observation count (a summary
statistic of the CATE view) has no decimal digits: `{1234:,}` renders as
`"1,234"`, which fails the four-decimal check. -/
theorem cate_count_not_four_decimals :
    fourDecimalCheck (formatComma 1234) = false ∧
    formatComma 1234 = "1,234" ∧
    cateCountLine 1234 = "**Number of CATE observations:** 1,234" := by
  refine ⟨?_, ?_, ?_⟩ <;> decide

/-- Lines 96–167 of src/app.py, the Model Results view: render the result
table and the comparison plot, select the best model (lines 119–123), and
render the metric and the interpretation markdown.  The only failure point
is the `idxmax` inside `bestModelSelection`; a failure there aborts the
run (there is no try/except anywhere in the script), which the `Except`
error models.  Chart and markdown renderings are abstracted to tags. -/
def modelResultsView (causal : List CausalRow) : Except PyError (List String) :=
  (bestModelSelection causal).map (fun r =>
    ["dataframe causal_results", "comparison plot",
     bestModelLabel r, ateDisplay r, ciDisplay r,
     "interpretation markdown", "style markdown"])

/-- The module-level state of the script after line 21: the three loaded
tables. -/
structure AppState where
  df : Dataset
  causal : List CausalRow
  cate : List ℚ

/-- The Model Results view as a transformation of the module state: the
block at lines 96–167 contains no assignment to any of the three tables
(every pandas operation in it is a read or builds a temporary), so the
embedding returns the state exactly as the block leaves it. -/
def modelResultsStep (s : AppState) : Except PyError (AppState × List String) :=
  (modelResultsView s.causal).map (fun out => (s, out))

/-- C9 counterexample: a missing data file aborts `load_data` with the raw
`FileNotFoundError`, and an empty result table aborts the Model Results
view with the raw pandas `ValueError` — in both cases the error escapes
uncaught instead of being turned into a user-visible message. -/
theorem errors_propagate_uncaught :
    load_data noneFS = .error .fileNotFoundError ∧
    modelResultsView [] = .error .valueError :=
  ⟨rfl, rfl⟩

/-- C9 amended: the script has no error handling at the presentation
boundary: when the data file is unreadable `load_data` fails with the raw
read error and produces no output, and on an empty result table the Model
Results view fails with the raw pandas `ValueError` and produces no
output; both failures terminate the script run uncaught. -/
theorem no_error_caught_at_boundary :
    (∀ fs : FS, fs "data.xlsx" = none →
      load_data fs = .error .fileNotFoundError ∧
      ∀ out : Dataset × Dataset × Dataset, load_data fs ≠ .ok out) ∧
    (modelResultsView [] = .error .valueError ∧
      ∀ out : List String, modelResultsView [] ≠ .ok out) := by
  constructor
  · intro fs h
    have hload : load_data fs = .error .fileNotFoundError := by
      rw [load_data, read_excel, h]
      rfl
    exact ⟨hload, fun out hc => by rw [hload] at hc; cases hc⟩
  · exact ⟨rfl, fun out hc => by cases hc⟩

/-- Witness for C9 (amended) at the wholly unreadable file system. -/
theorem no_error_caught_at_boundary_witness :
    load_data noneFS = .error .fileNotFoundError ∧
    ∀ out : Dataset × Dataset × Dataset, load_data noneFS ≠ .ok out :=
  no_error_caught_at_boundary.1 noneFS rfl

/-- A one-row result table with integral cells, used as a concrete state. -/
def rowC : CausalRow :=
  { model := "C", ATE := 3, CI_low := 1, CI_high := 5, abs_ATE := 3 }

/-- A concrete module state holding the one-row table. -/
def exState : AppState := { df := emptyDS, causal := [rowC], cate := [] }

/-- C10: the script contains exactly one call of the (cached) loader, at
line 21, so the result table is read exactly once at startup; the Model
Results block never changes the module state; and on a table where the
selection succeeds the view recomputes the best model from the current
table and renders it, leaving the state intact. -/
theorem result_table_loaded_once_never_mutated :
    appTopLevel.countP (fun s => decide (s = .plain "call load_data")) = 1 ∧
    loadReadTrace.count "causal_results (1).xlsx" = 1 ∧
    (∀ (s s2 : AppState) (out : List String),
      modelResultsStep s = .ok (s2, out) → s2 = s) ∧
    (∀ (s : AppState) (r : CausalRow), bestModelSelection s.causal = .ok r →
      modelResultsStep s = .ok (s,
        ["dataframe causal_results", "comparison plot",
         bestModelLabel r, ateDisplay r, ciDisplay r,
         "interpretation markdown", "style markdown"])) := by
  refine ⟨by decide, by decide, ?_, ?_⟩
  · intro s s2 out h
    rw [modelResultsStep] at h
    rcases heq : modelResultsView s.causal with e | o
    · rw [heq] at h; cases h
    · rw [heq] at h; cases h; rfl
  · intro s r h
    rw [modelResultsStep, modelResultsView, h]
    rfl

/-- Witness for C10 at the concrete one-row state. -/
theorem result_table_loaded_once_never_mutated_witness :
    modelResultsStep exState = .ok (exState,
      ["dataframe causal_results", "comparison plot",
       bestModelLabel rowC, ateDisplay rowC, ciDisplay rowC,
       "interpretation markdown", "style markdown"]) :=
  result_table_loaded_once_never_mutated.2.2.2 exState rowC
    (by simp [exState, rowC, bestModelSelection_cons, seriesMaxAux, firstIdxOf])

end AfricaDashboard
